import Mathlib

/-!
Verification of the resilience layer of the API-Gateway repository:
circuit breaker (app/gateway/circuit_breaker.py), retry executor
(app/gateway/retry.py), rate limiter (app/gateway/rate_limiter.py) and
the proxy orchestrator (app/main.py, proxy_request), shallowly embedded
as pure Lean functions over explicit store states.

Timestamps are modelled as rationals (Python's time.time() returns
fractional seconds) for the circuit breaker and as integers for the rate
limiter (the source truncates with int(time.time())).  Redis keys are
modelled typed: the failure counter as an integer (INCR on an absent key
yields 1, i.e. absent = 0), the state key as an optional enum (the code
only ever writes the three state strings), opened_at as an optional
rational (stored non-empty string is truthy whenever present).
-/

/-- Configuration fields read by the circuit breaker
(app/core/config.py: CIRCUIT_FAILURE_THRESHOLD, CIRCUIT_RECOVERY_TIMEOUT,
both ints). -/
structure CircuitConfig where
  CIRCUIT_FAILURE_THRESHOLD : Int
  CIRCUIT_RECOVERY_TIMEOUT : Int
deriving DecidableEq

/-- The three state strings the breaker writes to the state key. -/
inductive CircuitState where
  | CLOSED
  | OPEN
  | HALF_OPEN
deriving DecidableEq

/-- The redis keys one CircuitBreaker instance touches:
`circuit:{service}:failures` (integer counter, absent = 0),
`circuit:{service}:state` (absent for a fresh service),
`circuit:{service}:opened_at` (absent until first opening). -/
structure BreakerStore where
  failures : Int
  state : Option CircuitState
  opened_at : Option Rat
deriving DecidableEq

/-- A freshly-seen service: no key has ever been written. -/
def freshStore : BreakerStore :=
  { failures := 0, state := none, opened_at := none }

namespace CircuitBreaker

/-- CircuitBreaker.is_open (circuit_breaker.py lines 15-27).  Reads the
state key; when it holds "OPEN" and opened_at is present and more than
CIRCUIT_RECOVERY_TIMEOUT seconds old, rewrites the state key to
"HALF_OPEN" and returns False; when it holds "OPEN" otherwise, returns
True; any other state value (or an absent key) returns False with no
store write.  Returns the boolean together with the store after the call. -/
def is_open (cfg : CircuitConfig) (now : Rat) (s : BreakerStore) :
    Bool × BreakerStore :=
  match s.state with
  | some CircuitState.OPEN =>
    match s.opened_at with
    | some t =>
      if now - t > (cfg.CIRCUIT_RECOVERY_TIMEOUT : Rat) then
        (false, { s with state := some CircuitState.HALF_OPEN })
      else
        (true, s)
    | none => (true, s)
  | _ => (false, s)

/-- CircuitBreaker.record_failure (circuit_breaker.py lines 29-34):
INCR the failure counter; if the new value reaches
CIRCUIT_FAILURE_THRESHOLD, write state "OPEN" and stamp opened_at with
the current time. -/
def record_failure (cfg : CircuitConfig) (now : Rat) (s : BreakerStore) :
    BreakerStore :=
  let failures := s.failures + 1
  if failures ≥ cfg.CIRCUIT_FAILURE_THRESHOLD then
    { failures := failures, state := some CircuitState.OPEN,
      opened_at := some now }
  else
    { s with failures := failures }

/-- CircuitBreaker.record_success (circuit_breaker.py lines 36-38):
set the failure counter to 0 and the state key to "CLOSED"; opened_at is
left untouched. -/
def record_success (s : BreakerStore) : BreakerStore :=
  { s with failures := 0, state := some CircuitState.CLOSED }

end CircuitBreaker

/-- A sequence of record_failure calls at the given times, in order. -/
def record_failures (cfg : CircuitConfig) (ts : List Rat)
    (s : BreakerStore) : BreakerStore :=
  ts.foldl (fun a t => CircuitBreaker.record_failure cfg t a) s

lemma record_failures_below (cfg : CircuitConfig) (ts : List Rat) :
    ∀ m : Int, m + ts.length < cfg.CIRCUIT_FAILURE_THRESHOLD →
      record_failures cfg ts ⟨m, none, none⟩ = ⟨m + ts.length, none, none⟩ := by
  induction ts with
  | nil =>
    intro m _
    simp [record_failures]
  | cons t rest ih =>
    intro m hm
    have hstep : CircuitBreaker.record_failure cfg t ⟨m, none, none⟩ =
        ⟨m + 1, none, none⟩ := by
      have hlt : ¬ (m + 1 ≥ cfg.CIRCUIT_FAILURE_THRESHOLD) := by
        simp only [List.length_cons] at hm
        push_cast at hm
        omega
      simp [CircuitBreaker.record_failure, hlt]
    have hrest : m + 1 + rest.length < cfg.CIRCUIT_FAILURE_THRESHOLD := by
      simp only [List.length_cons] at hm
      push_cast at hm ⊢
      omega
    have := ih (m + 1) hrest
    simp only [record_failures, List.foldl_cons] at *
    rw [hstep, this]
    congr 1
    simp only [List.length_cons]
    push_cast
    omega

/-- Claim C7: starting from a freshly-seen service (all keys absent,
isOpen() = false), any sequence of CIRCUIT_FAILURE_THRESHOLD - 1
record_failure calls leaves isOpen() false, and the threshold-th
record_failure makes the immediately following isOpen() call (performed
at the same instant) return true. -/
theorem C7_threshold_opens (cfg : CircuitConfig)
    (_h1 : 1 ≤ cfg.CIRCUIT_FAILURE_THRESHOLD)
    (h2 : 0 ≤ cfg.CIRCUIT_RECOVERY_TIMEOUT)
    (ts : List Rat)
    (hlen : (ts.length : Int) = cfg.CIRCUIT_FAILURE_THRESHOLD - 1)
    (t now : Rat) :
    (CircuitBreaker.is_open cfg now freshStore).1 = false ∧
    (CircuitBreaker.is_open cfg now (record_failures cfg ts freshStore)).1
      = false ∧
    (CircuitBreaker.is_open cfg t
      (CircuitBreaker.record_failure cfg t
        (record_failures cfg ts freshStore))).1 = true := by
  have hfold : record_failures cfg ts freshStore =
      ⟨(ts.length : Int), none, none⟩ := by
    have := record_failures_below cfg ts 0 (by omega)
    simpa [freshStore] using this
  refine ⟨by simp [CircuitBreaker.is_open, freshStore], ?_, ?_⟩
  · rw [hfold]
    simp [CircuitBreaker.is_open]
  · rw [hfold]
    have hge : (ts.length : Int) + 1 ≥ cfg.CIRCUIT_FAILURE_THRESHOLD := by
      omega
    have hrf : CircuitBreaker.record_failure cfg t ⟨(ts.length : Int), none, none⟩ =
        ⟨(ts.length : Int) + 1, some CircuitState.OPEN, some t⟩ := by
      simp [CircuitBreaker.record_failure, hge]
    rw [hrf]
    have hnot : ¬ (t - t > (cfg.CIRCUIT_RECOVERY_TIMEOUT : Rat)) := by
      rw [sub_self]
      exact not_lt.mpr (by exact_mod_cast h2)
    simp only [CircuitBreaker.is_open]
    rw [if_neg hnot]

/-- Witness for C7 at threshold 5, timeout 30, failure times 0,1,2,3 and
a fifth failure at time 10, observed at times 7 and 10. -/
theorem C7_threshold_opens_witness :
    (1 ≤ (5 : Int)) ∧ (0 ≤ (30 : Int)) ∧
      ((([0, 1, 2, 3] : List Rat).length : Int) = 5 - 1) ∧
      ((CircuitBreaker.is_open ⟨5, 30⟩ 7 freshStore).1 = false ∧
       (CircuitBreaker.is_open ⟨5, 30⟩ 7
         (record_failures ⟨5, 30⟩ [0, 1, 2, 3] freshStore)).1 = false ∧
       (CircuitBreaker.is_open ⟨5, 30⟩ 10
         (CircuitBreaker.record_failure ⟨5, 30⟩ 10
           (record_failures ⟨5, 30⟩ [0, 1, 2, 3] freshStore))).1 = true) :=
  ⟨by decide, by decide, by decide,
    C7_threshold_opens ⟨5, 30⟩ (by decide) (by decide) [0, 1, 2, 3]
      (by decide) 10 7⟩

/-- Claim C8: when the state key holds OPEN and opened_at is present,
is_open returns false and rewrites the state key to HALF_OPEN exactly
when strictly more than CIRCUIT_RECOVERY_TIMEOUT seconds have elapsed
since opened_at; when at most that many seconds have elapsed it returns
true and leaves the store unchanged. -/
theorem C8_open_recovery (cfg : CircuitConfig) (now t : Rat)
    (s : BreakerStore) (h1 : s.state = some CircuitState.OPEN)
    (h2 : s.opened_at = some t) :
    (now - t > (cfg.CIRCUIT_RECOVERY_TIMEOUT : Rat) →
      CircuitBreaker.is_open cfg now s =
        (false, { s with state := some CircuitState.HALF_OPEN })) ∧
    (now - t ≤ (cfg.CIRCUIT_RECOVERY_TIMEOUT : Rat) →
      CircuitBreaker.is_open cfg now s = (true, s)) := by
  constructor
  · intro hgt
    simp only [CircuitBreaker.is_open, h1, h2]
    rw [if_pos hgt]
  · intro hle
    simp only [CircuitBreaker.is_open, h1, h2]
    rw [if_neg (not_lt.mpr hle)]

/-- Witness for C8 on the store ⟨5, OPEN, opened at time 0⟩ with
timeout 30, checked at time 100. -/
theorem C8_open_recovery_witness :
    ((⟨5, some CircuitState.OPEN, some 0⟩ : BreakerStore).state
        = some CircuitState.OPEN) ∧
    ((⟨5, some CircuitState.OPEN, some 0⟩ : BreakerStore).opened_at
        = some 0) ∧
    (((100 : Rat) - 0 > ((30 : Int) : Rat) →
      CircuitBreaker.is_open ⟨5, 30⟩ 100
          ⟨5, some CircuitState.OPEN, some 0⟩ =
        (false, ⟨5, some CircuitState.HALF_OPEN, some 0⟩)) ∧
     ((100 : Rat) - 0 ≤ ((30 : Int) : Rat) →
      CircuitBreaker.is_open ⟨5, 30⟩ 100
          ⟨5, some CircuitState.OPEN, some 0⟩ =
        (true, ⟨5, some CircuitState.OPEN, some 0⟩))) :=
  ⟨rfl, rfl, C8_open_recovery ⟨5, 30⟩ 100 0
    ⟨5, some CircuitState.OPEN, some 0⟩ rfl rfl⟩

/-- Claim C10: is_open never modifies the failure counter or the
opened_at timestamp, in any store state; the state key is either left
unchanged or, only when it held OPEN, rewritten to HALF_OPEN.  In
particular the failure count accumulated before opening is carried
unchanged into HALF_OPEN. -/
theorem C10_is_open_frame (cfg : CircuitConfig) (now : Rat)
    (s : BreakerStore) :
    (CircuitBreaker.is_open cfg now s).2.failures = s.failures ∧
    (CircuitBreaker.is_open cfg now s).2.opened_at = s.opened_at ∧
    ((CircuitBreaker.is_open cfg now s).2.state = s.state ∨
      (s.state = some CircuitState.OPEN ∧
        (CircuitBreaker.is_open cfg now s).2.state
          = some CircuitState.HALF_OPEN)) := by
  unfold CircuitBreaker.is_open
  rcases s with ⟨f, st, op⟩
  rcases st with _ | st
  · simp
  · cases st with
    | CLOSED => simp
    | HALF_OPEN => simp
    | OPEN =>
      rcases op with _ | t
      · simp
      · by_cases h : now - t > (cfg.CIRCUIT_RECOVERY_TIMEOUT : Rat)
        · simp [h]
        · simp [h]

/-- Claim C4: on a store whose state key holds HALF_OPEN, a
record_failure call whose incremented count stays below
CIRCUIT_FAILURE_THRESHOLD leaves the state key at HALF_OPEN (so isOpen
still returns false afterwards) and does not touch opened_at; only when
the incremented count reaches the threshold again does the breaker
re-open and re-stamp opened_at with the current time. -/
theorem C4_half_open_below_threshold (cfg : CircuitConfig)
    (now now' : Rat) (s : BreakerStore)
    (h : s.state = some CircuitState.HALF_OPEN) :
    (s.failures + 1 < cfg.CIRCUIT_FAILURE_THRESHOLD →
      (CircuitBreaker.record_failure cfg now s).state
          = some CircuitState.HALF_OPEN ∧
      (CircuitBreaker.record_failure cfg now s).opened_at = s.opened_at ∧
      (CircuitBreaker.is_open cfg now'
        (CircuitBreaker.record_failure cfg now s)).1 = false) ∧
    (cfg.CIRCUIT_FAILURE_THRESHOLD ≤ s.failures + 1 →
      (CircuitBreaker.record_failure cfg now s).state
          = some CircuitState.OPEN ∧
      (CircuitBreaker.record_failure cfg now s).opened_at = some now) := by
  constructor
  · intro hlt
    have hneg : ¬ (s.failures + 1 ≥ cfg.CIRCUIT_FAILURE_THRESHOLD) := by
      omega
    have hrf : CircuitBreaker.record_failure cfg now s =
        { s with failures := s.failures + 1 } := by
      simp [CircuitBreaker.record_failure, hneg]
    rw [hrf]
    refine ⟨by simp [h], rfl, ?_⟩
    simp [CircuitBreaker.is_open, h]
  · intro hge
    have hge' : s.failures + 1 ≥ cfg.CIRCUIT_FAILURE_THRESHOLD := hge
    simp [CircuitBreaker.record_failure, hge']

/-- Witness for C4 on a HALF_OPEN store with failure count 1 and
threshold 5: the incremented count 2 stays below the threshold, so the
below-threshold implication applies with its hypothesis discharged
concretely. -/
theorem C4_half_open_below_threshold_witness :
    ((⟨1, some CircuitState.HALF_OPEN, some 0⟩ : BreakerStore).state
        = some CircuitState.HALF_OPEN) ∧
    ((1 : Int) + 1 < 5 →
      (CircuitBreaker.record_failure ⟨5, 30⟩ 2
          ⟨1, some CircuitState.HALF_OPEN, some 0⟩).state
        = some CircuitState.HALF_OPEN ∧
      (CircuitBreaker.record_failure ⟨5, 30⟩ 2
          ⟨1, some CircuitState.HALF_OPEN, some 0⟩).opened_at
        = (⟨1, some CircuitState.HALF_OPEN, some 0⟩ : BreakerStore).opened_at ∧
      (CircuitBreaker.is_open ⟨5, 30⟩ 3
        (CircuitBreaker.record_failure ⟨5, 30⟩ 2
          ⟨1, some CircuitState.HALF_OPEN, some 0⟩)).1 = false) :=
  ⟨rfl, (C4_half_open_below_threshold ⟨5, 30⟩ 2 3
    ⟨1, some CircuitState.HALF_OPEN, some 0⟩ rfl).1⟩

/-- One downstream attempt's outcome, as seen by retry_request: either
client.get returned a response with the given status code, or it raised
a transport-level httpx.RequestError (httpx.HTTPStatusError is also
listed in the except clause but is never raised, since
raise_for_status() is never called). -/
inductive Outcome where
  | resp (status : Nat)
  | transport
deriving DecidableEq

/-- How a retry_request call terminates (retry.py lines 11-24):
`ok` - a response with status < 500 is returned;
`serverError` - a response with status ≥ 500 makes the body raise a
plain Exception("Server error: ..."), which is NOT an httpx.RequestError
or httpx.HTTPStatusError, so the except clause does not catch it and it
propagates to the caller at once;
`transportExhausted` - every attempt raised a transport error and the
final `raise last_exception` re-raises the last one;
`raiseNone` - max_retries = 0: the loop body never runs and
`raise last_exception` raises None (a TypeError). -/
inductive RetryResult where
  | ok (status : Nat)
  | serverError (status : Nat)
  | transportExhausted
  | raiseNone
deriving DecidableEq

/-- A retry_request execution: its result, the list of backoff sleeps
performed (in order), and the number of downstream GET calls made. -/
structure RetryTrace where
  result : RetryResult
  sleeps : List Rat
  calls : Nat
deriving DecidableEq

/-- The `for attempt in range(max_retries)` loop of retry_request,
entered at the given attempt index with the given fuel (iterations left,
max_retries - attempt at the call site).  Outcome `outs a` is what the
downstream GET of attempt `a` yields.  A status < 500 returns; a status
≥ 500 raises the uncaught plain Exception; a transport error is caught,
and when `attempt < max_retries - 1` the loop sleeps
base_delay * 2 ^ attempt before the next iteration.  Fuel 0 is the loop
exhausting its range, which re-raises the last transport error. -/
def retryGo (outs : Nat → Outcome) (max_retries : Nat) (base_delay : Rat) :
    Nat → Nat → RetryTrace
  | 0, _ => ⟨RetryResult.transportExhausted, [], 0⟩
  | fuel + 1, attempt =>
    match outs attempt with
    | Outcome.resp status =>
      if status < 500 then ⟨RetryResult.ok status, [], 1⟩
      else ⟨RetryResult.serverError status, [], 1⟩
    | Outcome.transport =>
      let rest := retryGo outs max_retries base_delay fuel (attempt + 1)
      if attempt < max_retries - 1 then
        ⟨rest.result, base_delay * 2 ^ attempt :: rest.sleeps, rest.calls + 1⟩
      else
        ⟨rest.result, rest.sleeps, rest.calls + 1⟩

/-- retry_request (retry.py lines 6-24), with main.py's default
arguments max_retries = 3 and base_delay = 1.0 passed explicitly.
When max_retries = 0 the loop never runs and `raise last_exception`
raises None. -/
def retry_request (outs : Nat → Outcome) (max_retries : Nat)
    (base_delay : Rat) : RetryTrace :=
  if max_retries = 0 then ⟨RetryResult.raiseNone, [], 0⟩
  else retryGo outs max_retries base_delay max_retries 0

/-- The backoff delay computed by retry.py line 22:
`delay = base_delay * (2 ** attempt)`. -/
def backoff_delay (base_delay : Rat) (attempt : Nat) : Rat :=
  base_delay * 2 ^ attempt

lemma retryGo_ok_lt (outs : Nat → Outcome) (mr : Nat) (bd : Rat) :
    ∀ fuel attempt st,
      (retryGo outs mr bd fuel attempt).result = RetryResult.ok st →
      st < 500 := by
  intro fuel
  induction fuel with
  | zero =>
    intro attempt st h
    simp [retryGo] at h
  | succ n ih =>
    intro attempt st h
    rw [retryGo] at h
    rcases hout : outs attempt with status | _
    · simp only [hout] at h
      by_cases hlt : status < 500
      · rw [if_pos hlt] at h
        simp at h
        omega
      · rw [if_neg hlt] at h
        simp at h
    · simp only [hout] at h
      by_cases hrem : attempt < mr - 1
      · rw [if_pos hrem] at h
        exact ih (attempt + 1) st h
      · rw [if_neg hrem] at h
        exact ih (attempt + 1) st h

lemma retryGo_sleeps_tail (outs : Nat → Outcome) (mr : Nat) (bd : Rat) :
    ∀ fuel attempt, mr - 1 ≤ attempt →
      (retryGo outs mr bd fuel attempt).sleeps = [] := by
  intro fuel
  induction fuel with
  | zero =>
    intro attempt _
    simp [retryGo]
  | succ n ih =>
    intro attempt ha
    rw [retryGo]
    rcases hout : outs attempt with status | _
    · by_cases hlt : status < 500 <;> simp [hlt]
    · have hrem : ¬ (attempt < mr - 1) := by omega
      simp only [if_neg hrem]
      exact ih (attempt + 1) (by omega)

lemma retryGo_sleeps_range (outs : Nat → Outcome) (mr : Nat) (bd : Rat) :
    ∀ fuel attempt, ∃ k,
      (retryGo outs mr bd fuel attempt).sleeps =
        (List.range' attempt k).map (backoff_delay bd) := by
  intro fuel
  induction fuel with
  | zero =>
    intro attempt
    exact ⟨0, by simp [retryGo]⟩
  | succ n ih =>
    intro attempt
    rw [retryGo]
    rcases hout : outs attempt with status | _
    · by_cases hlt : status < 500 <;> exact ⟨0, by simp [hlt]⟩
    · by_cases hrem : attempt < mr - 1
      · obtain ⟨k, hk⟩ := ih (attempt + 1)
        refine ⟨k + 1, ?_⟩
        simp only [if_pos hrem, hk, List.range'_succ, List.map_cons]
        rfl
      · refine ⟨0, ?_⟩
        simp only [if_neg hrem]
        exact retryGo_sleeps_tail outs mr bd n (attempt + 1) (by omega)

/-- Claim C9: the backoff sleep performed between attempt a and attempt
a + 1 is exactly base_delay * 2 ^ a - the whole sleep trace of any
retry_request execution is the map of backoff_delay over the attempt
indices 0, 1, ... (hence deterministic given the attempt index), and for
nonnegative base_delay the schedule is monotonically non-decreasing
across successive attempts. -/
theorem C9_backoff_schedule (outs : Nat → Outcome) (mr : Nat)
    (bd : Rat) (h : 0 ≤ bd) :
    (retry_request outs mr bd).sleeps =
      (List.range (retry_request outs mr bd).sleeps.length).map
        (backoff_delay bd) ∧
    ∀ a : Nat, backoff_delay bd a ≤ backoff_delay bd (a + 1) := by
  constructor
  · unfold retry_request
    by_cases hmr : mr = 0
    · simp [hmr]
    · simp only [if_neg hmr]
      obtain ⟨k, hk⟩ := retryGo_sleeps_range outs mr bd mr 0
      rw [hk]
      have hlen : ((List.range' 0 k).map (backoff_delay bd)).length = k := by
        simp
      rw [hlen]
      congr 1
      exact (List.range_eq_range' k).symm ▸ rfl
  · intro a
    unfold backoff_delay
    have h2 : (2 : Rat) ^ a ≤ 2 ^ (a + 1) := by
      apply pow_le_pow_right₀ (by norm_num)
      omega
    exact mul_le_mul_of_nonneg_left h2 h

/-- Witness for C9 with every attempt failing at transport level,
max_retries = 3 and base_delay = 1: the sleeps are [1, 2]. -/
theorem C9_backoff_schedule_witness :
    (0 ≤ (1 : Rat)) ∧
    ((retry_request (fun _ => Outcome.transport) 3 1).sleeps =
      (List.range
        (retry_request (fun _ => Outcome.transport) 3 1).sleeps.length).map
        (backoff_delay 1) ∧
     ∀ a : Nat, backoff_delay 1 a ≤ backoff_delay 1 (a + 1)) :=
  ⟨by norm_num, C9_backoff_schedule (fun _ => Outcome.transport) 3 1
    (by norm_num)⟩

/-- Claim C1 (code bug): a response with status ≥ 500 is NOT retried.
The body raises a plain Exception for it, but the except clause only
catches httpx.RequestError and httpx.HTTPStatusError, so the exception
escapes retry_request on the very first such attempt: one downstream
call, no backoff sleep, immediate propagation to the caller - whereas
transport-level failures are retried exactly as the claim describes
(three calls, sleeps of 1 and 2 seconds, then the last failure
propagates). -/
theorem C1_server_error_not_retried :
    retry_request (fun _ => Outcome.resp 500) 3 1 =
      ⟨RetryResult.serverError 500, [], 1⟩ ∧
    retry_request (fun _ => Outcome.transport) 3 1 =
      ⟨RetryResult.transportExhausted, [1, 2], 3⟩ := by
  constructor
  · rfl
  · show retry_request (fun _ => Outcome.transport) 3 1 =
      ⟨RetryResult.transportExhausted, [(1 : Rat), 2], 3⟩
    norm_num [retry_request, retryGo]

/-- The terminal outcome of one proxy_request execution (main.py lines
96-153).  Each carries the HTTP status of the response the caller sees.
`downstream_error` is the HTTPException(502) of lines 118-129; in the
source it can never reach the caller, because it is raised inside the
try block whose `except Exception` clause converts it to the 503
`request_failed` response (and because retry_request raises rather than
returns on any status ≥ 500). -/
inductive ProxyResult where
  | circuit_breaker_open
  | downstream_error
  | request_failed
  | success (status : Nat)
deriving DecidableEq

/-- The HTTP status code each proxy outcome carries in main.py. -/
def ProxyResult.http_status : ProxyResult → Nat
  | ProxyResult.circuit_breaker_open => 503
  | ProxyResult.downstream_error => 502
  | ProxyResult.request_failed => 503
  | ProxyResult.success _ => 200

/-- A proxy_request execution: the outcome, the breaker store after the
call, how many record_failure and record_success calls were made, and
whether retry_request was invoked at all. -/
structure ProxyTrace where
  result : ProxyResult
  store : BreakerStore
  failure_calls : Nat
  success_calls : Nat
  retry_invoked : Bool
deriving DecidableEq

/-- proxy_request (main.py lines 96-153).  If the breaker is open, raise
HTTPException(503) with no further breaker interaction.  Otherwise call
retry_request (max_retries 3, base_delay 1.0, the source defaults).  If
it returns a response with status ≥ 500 (impossible in the source,
retryGo_ok_lt below): record_failure, raise HTTPException(502) - which
the enclosing `except Exception` catches, calling record_failure a
second time and raising HTTPException(503).  If it returns a response
with status < 500: record_success and return it (200).  If it raises
(server-error Exception, exhausted transport errors, or the raise of
None): the except clause calls record_failure once and raises
HTTPException(503). -/
def proxy_request (cfg : CircuitConfig) (now : Rat) (outs : Nat → Outcome)
    (s : BreakerStore) : ProxyTrace :=
  let checked := CircuitBreaker.is_open cfg now s
  if checked.1 then
    ⟨ProxyResult.circuit_breaker_open, checked.2, 0, 0, false⟩
  else
    let r := retry_request outs 3 1
    match r.result with
    | RetryResult.ok status =>
      if status ≥ 500 then
        let s1 := CircuitBreaker.record_failure cfg now checked.2
        let s2 := CircuitBreaker.record_failure cfg now s1
        ⟨ProxyResult.request_failed, s2, 2, 0, true⟩
      else
        ⟨ProxyResult.success status, CircuitBreaker.record_success checked.2,
          0, 1, true⟩
    | _ =>
      ⟨ProxyResult.request_failed,
        CircuitBreaker.record_failure cfg now checked.2, 1, 0, true⟩

/-- Claim C2: every proxy_request execution performs exactly one
record_failure-or-record_success call, except when the breaker is open
at entry, in which case retry_request is not invoked and no record call
is made; a downstream that answers 500 on every attempt yields exactly
one record_failure, and one that answers 200 yields exactly one
record_success. -/
theorem C2_exactly_one_record (cfg : CircuitConfig) (now : Rat)
    (outs : Nat → Outcome) (s : BreakerStore) :
    ((CircuitBreaker.is_open cfg now s).1 = true →
      (proxy_request cfg now outs s).retry_invoked = false ∧
      (proxy_request cfg now outs s).failure_calls = 0 ∧
      (proxy_request cfg now outs s).success_calls = 0) ∧
    ((CircuitBreaker.is_open cfg now s).1 = false →
      (proxy_request cfg now outs s).failure_calls +
        (proxy_request cfg now outs s).success_calls = 1 ∧
      (proxy_request cfg now (fun _ => Outcome.resp 500) s).failure_calls
        = 1 ∧
      (proxy_request cfg now (fun _ => Outcome.resp 500) s).success_calls
        = 0 ∧
      (proxy_request cfg now (fun _ => Outcome.resp 200) s).success_calls
        = 1 ∧
      (proxy_request cfg now (fun _ => Outcome.resp 200) s).failure_calls
        = 0) := by
  constructor
  · intro hopen
    simp [proxy_request, hopen]
  · intro hclosed
    have hgen : ∀ o : Nat → Outcome,
        (proxy_request cfg now o s).failure_calls +
          (proxy_request cfg now o s).success_calls = 1 := by
      intro o
      unfold proxy_request
      simp only [hclosed, Bool.false_eq_true, if_false]
      rcases hres : (retry_request o 3 1).result with st | st | _ | _
      · have hlt : st < 500 := by
          unfold retry_request at hres
          by_cases hmr : (3 : Nat) = 0
          · simp [hmr] at hres
          · simp only [if_neg hmr] at hres
            exact retryGo_ok_lt o 3 1 3 0 st hres
        simp only [hres]
        rw [if_neg (by omega)]
        rfl
      · simp [hres]
      · simp [hres]
      · simp [hres]
    refine ⟨hgen outs, ?_, ?_, ?_, ?_⟩
    · unfold proxy_request
      simp [hclosed]
      rfl
    · unfold proxy_request
      simp [hclosed]
      rfl
    · unfold proxy_request
      simp [hclosed]
      rfl
    · unfold proxy_request
      simp [hclosed]
      rfl

/-- Witness for C2 on a fresh (closed) breaker with a downstream that
always answers 200. -/
theorem C2_exactly_one_record_witness :
    ((CircuitBreaker.is_open ⟨5, 30⟩ 0 freshStore).1 = false) ∧
    ((proxy_request ⟨5, 30⟩ 0 (fun _ => Outcome.resp 200)
        freshStore).failure_calls +
      (proxy_request ⟨5, 30⟩ 0 (fun _ => Outcome.resp 200)
        freshStore).success_calls = 1 ∧
     (proxy_request ⟨5, 30⟩ 0 (fun _ => Outcome.resp 500)
        freshStore).failure_calls = 1 ∧
     (proxy_request ⟨5, 30⟩ 0 (fun _ => Outcome.resp 500)
        freshStore).success_calls = 0 ∧
     (proxy_request ⟨5, 30⟩ 0 (fun _ => Outcome.resp 200)
        freshStore).success_calls = 1 ∧
     (proxy_request ⟨5, 30⟩ 0 (fun _ => Outcome.resp 200)
        freshStore).failure_calls = 0) :=
  ⟨rfl, (C2_exactly_one_record ⟨5, 30⟩ 0 (fun _ => Outcome.resp 200)
    freshStore).2 rfl⟩

/-- Claim C3 (code bug): a downstream that answers 500 on every attempt,
proxied with a fresh (closed) breaker, records exactly one breaker
failure but reaches the caller as the 503 `request_failed` outcome, not
the 502 `downstream_error` outcome the spec requires: retry_request
raises its plain Exception on the first ≥ 500 response, so
proxy_request's `response.status_code >= 500` branch (the only one that
raises HTTPException(502)) is unreachable, and the except clause answers
503. -/
theorem C3_downstream_500_gives_503 :
    proxy_request ⟨5, 30⟩ 0 (fun _ => Outcome.resp 500) freshStore =
      ⟨ProxyResult.request_failed, ⟨1, none, none⟩, 1, 0, true⟩ ∧
    (proxy_request ⟨5, 30⟩ 0 (fun _ => Outcome.resp 500)
        freshStore).result.http_status = 503 ∧
    (proxy_request ⟨5, 30⟩ 0 (fun _ => Outcome.resp 500)
        freshStore).result ≠ ProxyResult.downstream_error := by
  refine ⟨rfl, rfl, ?_⟩
  intro h
  simp [proxy_request, CircuitBreaker.is_open, freshStore,
    retry_request, retryGo] at h

/-- Configuration fields read by the rate limiter (app/core/config.py:
RATE_LIMIT_REQUESTS, RATE_LIMIT_WINDOW_SEC, both ints). -/
structure RateConfig where
  RATE_LIMIT_REQUESTS : Int
  RATE_LIMIT_WINDOW_SEC : Int
deriving DecidableEq

/-- Redis ZREMRANGEBYSCORE on the client's window: removes every member
whose score lies in the inclusive range [lo, hi].  In rate_limiter.py
every member of `rate_limit:{ip}` is str(ts) with score ts, so the
window is a duplicate-free list of integer timestamps. -/
def zremrangebyscore (w : List Int) (lo hi : Int) : List Int :=
  w.filter (fun t => ¬ (lo ≤ t ∧ t ≤ hi))

/-- Redis ZADD key {str(ts): ts}: adding an existing member only
updates its score (here unchanged), so the cardinality does not grow
when the same integer second is added again. -/
def zadd (w : List Int) (t : Int) : List Int :=
  if t ∈ w then w else w ++ [t]

/-- is_rate_limited (rate_limiter.py lines 7-19): pipeline of
zremrangebyscore(key, 0, now - RATE_LIMIT_WINDOW_SEC), zadd(key,
{str(now): now}), zcard(key), expire(key, window + 1); returns
request_count > RATE_LIMIT_REQUESTS together with the stored window
after the call.  The expire call only refreshes the key's TTL and does
not change membership at query time, so it has no counterpart here. -/
def is_rate_limited (cfg : RateConfig) (now : Int) (w : List Int) :
    Bool × List Int :=
  (decide (cfg.RATE_LIMIT_REQUESTS <
      (((zadd (zremrangebyscore w 0 (now - cfg.RATE_LIMIT_WINDOW_SEC))
          now).length : Nat) : Int)),
   zadd (zremrangebyscore w 0 (now - cfg.RATE_LIMIT_WINDOW_SEC)) now)

/-- A sequence of is_rate_limited checks at the given times, in order,
returning the list of rate-limited verdicts and the final window. -/
def run_requests (cfg : RateConfig) : List Int → List Int →
    List Bool × List Int
  | [], w => ([], w)
  | t :: rest, w =>
    let r := is_rate_limited cfg t w
    let rr := run_requests cfg rest r.2
    (r.1 :: rr.1, rr.2)

lemma zrem_keep_all (w : List Int) (lo hi : Int)
    (h : ∀ t ∈ w, ¬ (lo ≤ t ∧ t ≤ hi)) : zremrangebyscore w lo hi = w := by
  unfold zremrangebyscore
  rw [List.filter_eq_self]
  intro a ha
  exact decide_eq_true (h a ha)

lemma zrem_drop_all (w : List Int) (lo hi : Int)
    (h : ∀ t ∈ w, lo ≤ t ∧ t ≤ hi) : zremrangebyscore w lo hi = [] := by
  unfold zremrangebyscore
  rw [List.filter_eq_nil_iff]
  intro a ha
  simp only [decide_eq_true_eq, not_not]
  exact h a ha

lemma is_rate_limited_keep_step (cfg : RateConfig) (now : Int)
    (w : List Int)
    (hkeep : ∀ t ∈ w, ¬ (0 ≤ t ∧ t ≤ now - cfg.RATE_LIMIT_WINDOW_SEC))
    (hmem : now ∉ w) :
    is_rate_limited cfg now w =
      (decide (cfg.RATE_LIMIT_REQUESTS < ((w.length + 1 : Nat) : Int)),
        w ++ [now]) := by
  unfold is_rate_limited
  rw [zrem_keep_all _ _ _ hkeep]
  unfold zadd
  rw [if_neg hmem]
  simp

/-- Claim C5 counterexample: with limit 3 and window 60, four requests
from one client all arriving during the same integer second (here
second 100) are ALL allowed - the sorted-set member is str(timestamp),
so same-second requests overwrite one slot and the count never exceeds
1; the claim requires the fourth request within the span to be
rejected. -/
theorem C5_same_second_counterexample :
    (run_requests ⟨3, 60⟩ [100, 100, 100, 100] []).1 =
      [false, false, false, false] ∧
    (run_requests ⟨3, 60⟩ [100, 100, 100, 100] []).1 ≠
      [false, false, false, true] := by
  constructor
  · decide
  · decide

/-- Claim C5 as amended: with limit 3 and window 60, for requests from
one fresh client arriving at pairwise-distinct integer seconds, the
first three within a 60-second span are allowed, the fourth within the
same span is rejected (still occupying its slot), and a request after
the window has fully elapsed is allowed again. -/
theorem C5_distinct_seconds (t1 t2 t3 t4 t5 : Int) (h0 : 0 ≤ t1)
    (h12 : t1 < t2) (h23 : t2 < t3) (h34 : t3 < t4)
    (hspan : t4 - t1 < 60) (h45 : t4 + 60 ≤ t5) :
    (run_requests ⟨3, 60⟩ [t1, t2, t3, t4, t5] []).1 =
      [false, false, false, true, false] := by
  have e1 : is_rate_limited ⟨3, 60⟩ t1 [] = (false, [t1]) := by
    rw [is_rate_limited_keep_step _ _ _ (by simp) (by simp)]
    norm_num
  have e2 : is_rate_limited ⟨3, 60⟩ t2 [t1] = (false, [t1, t2]) := by
    rw [is_rate_limited_keep_step _ _ _ ?_ ?_]
    · norm_num
    · intro a ha
      simp only [List.mem_singleton] at ha
      subst ha
      dsimp only
      omega
    · intro hmem
      simp only [List.mem_singleton] at hmem
      omega
  have e3 : is_rate_limited ⟨3, 60⟩ t3 [t1, t2] = (false, [t1, t2, t3]) := by
    rw [is_rate_limited_keep_step _ _ _ ?_ ?_]
    · norm_num
    · intro a ha
      dsimp only
      simp only [List.mem_cons, List.mem_singleton, List.mem_nil_iff, or_false] at ha
      rcases ha with rfl | rfl
      · omega
      · omega
    · intro hmem
      simp only [List.mem_cons, List.mem_singleton, List.mem_nil_iff, or_false] at hmem
      rcases hmem with h | h <;> omega
  have e4 : is_rate_limited ⟨3, 60⟩ t4 [t1, t2, t3] =
      (true, [t1, t2, t3, t4]) := by
    rw [is_rate_limited_keep_step _ _ _ ?_ ?_]
    · norm_num
    · intro a ha
      dsimp only
      simp only [List.mem_cons, List.mem_singleton, List.mem_nil_iff, or_false] at ha
      rcases ha with rfl | rfl | rfl
      · omega
      · omega
      · omega
    · intro hmem
      simp only [List.mem_cons, List.mem_singleton, List.mem_nil_iff, or_false] at hmem
      rcases hmem with h | h | h <;> omega
  have e5 : is_rate_limited ⟨3, 60⟩ t5 [t1, t2, t3, t4] = (false, [t5]) := by
    unfold is_rate_limited
    rw [zrem_drop_all _ _ _ ?_]
    · simp [zadd]
    · intro a ha
      dsimp only
      simp only [List.mem_cons, List.mem_singleton, List.mem_nil_iff, or_false] at ha
      rcases ha with rfl | rfl | rfl | rfl
      · omega
      · omega
      · omega
      · omega
  simp only [run_requests, e1, e2, e3, e4, e5]

/-- Witness for C5 as amended, at request times 0, 1, 2, 3 and 63. -/
theorem C5_distinct_seconds_witness :
    ((0 : Int) ≤ 0 ∧ (0 : Int) < 1 ∧ (1 : Int) < 2 ∧ (2 : Int) < 3 ∧
      (3 : Int) - 0 < 60 ∧ (3 : Int) + 60 ≤ 63) ∧
    (run_requests ⟨3, 60⟩ [0, 1, 2, 3, 63] []).1 =
      [false, false, false, true, false] :=
  ⟨by decide,
    C5_distinct_seconds 0 1 2 3 63 (by decide) (by decide) (by decide)
      (by decide) (by decide) (by decide)⟩

/-- is_rate_limited as actually invoked against a store that may be
unreachable: rate_limiter.py wraps the four store operations in a redis
pipeline and calls pipeline.execute() with no try/except, so when the
store is unreachable the redis ConnectionError propagates out of
is_rate_limited instead of any boolean being returned. -/
def is_rate_limited_on_store (store_up : Bool) (cfg : RateConfig)
    (now : Int) (w : List Int) : Except Unit (Bool × List Int) :=
  if store_up then Except.ok (is_rate_limited cfg now w)
  else Except.error ()

/-- What RequestContextMiddleware.dispatch (middleware.py lines 21-27)
does with one inbound request, up to the rate-limit gate: `handled`
means call_next was reached (the request is allowed through),
`rate_limited_429` is the JSONResponse(429) short-circuit, and
`unhandled_store_error` is a store exception escaping dispatch -
is_rate_limited is called before dispatch's try block, so nothing in the
middleware catches it and the request aborts with an unhandled error. -/
inductive DispatchResult where
  | handled
  | rate_limited_429
  | unhandled_store_error
deriving DecidableEq

/-- The rate-limit gate of RequestContextMiddleware.dispatch. -/
def dispatch (store_up : Bool) (cfg : RateConfig) (now : Int)
    (w : List Int) : DispatchResult :=
  match is_rate_limited_on_store store_up cfg now w with
  | Except.error _ => DispatchResult.unhandled_store_error
  | Except.ok (true, _) => DispatchResult.rate_limited_429
  | Except.ok (false, _) => DispatchResult.handled

/-- Claim C6 counterexample: with the store unreachable, a request from
a fresh client at second 100 is NOT treated as allowed - the store
error propagates out of is_rate_limited and out of the middleware
(neither has any exception handling around the limiter call), so the
request aborts instead of being passed to call_next. -/
theorem C6_fail_open_counterexample :
    is_rate_limited_on_store false ⟨3, 60⟩ 100 [] = Except.error () ∧
    dispatch false ⟨3, 60⟩ 100 [] = DispatchResult.unhandled_store_error ∧
    dispatch false ⟨3, 60⟩ 100 [] ≠ DispatchResult.handled := by
  refine ⟨rfl, rfl, ?_⟩
  decide

/-- Claim C6 as amended: when the shared store is unreachable the
limiter does not fail open - for every configuration, time and stored
window, is_rate_limited propagates the store error and the middleware
aborts the request with an unhandled store error (it neither allows the
request through to call_next nor answers 429). -/
theorem C6_store_down_aborts (cfg : RateConfig) (now : Int)
    (w : List Int) :
    is_rate_limited_on_store false cfg now w = Except.error () ∧
    dispatch false cfg now w = DispatchResult.unhandled_store_error := by
  constructor
  · rfl
  · rfl
